import Mathlib

/-!
Verification of the blood-smear analysis orchestration core
(`server/src/controllers/analysisController.js`).

The controller is embedded shallowly: JavaScript numbers are modelled as
exact rationals (`ℚ`), `Math.floor`/`Math.round` as integer floor and
round-half-up, each `Math.random()` call site as a named component of an
explicit random source, the four MongoDB collections as lists inside a
`Store` record, and the deferred completion callback (the body of the
`setTimeout` in `processAnalysis`) as a state-transforming function with an
explicit failure-injection point for each awaited persistence step.
-/

namespace BloodSmear

/-- Floor of a rational, as `Math.floor` acts on a (non-NaN) number.
`Rat.floor` is used rather than `Int.floor` so terms reduce. -/
def jsFloor (q : ℚ) : ℤ := Rat.floor q

/-- JavaScript `Math.round`: nearest integer, ties toward positive infinity,
i.e. `⌊q + 1/2⌋`. -/
def jsRound (q : ℚ) : ℤ := jsFloor (q + 1/2)

/-- The controller's two-decimal rounding idiom `Math.round(q * 100) / 100`. -/
def round2 (q : ℚ) : ℚ := (jsRound (q * 100) : ℚ) / 100

theorem jsFloor_eq_floor (q : ℚ) : jsFloor q = ⌊q⌋ := by
  rw [jsFloor, Rat.floor_def', Rat.floor_def]

theorem jsFloor_le (q : ℚ) : (jsFloor q : ℚ) ≤ q := by
  rw [jsFloor_eq_floor]; exact Int.floor_le q

theorem le_jsFloor (n : ℤ) (q : ℚ) (h : (n : ℚ) ≤ q) : n ≤ jsFloor q := by
  rw [jsFloor_eq_floor]; exact Int.le_floor.mpr h

theorem jsFloor_nonneg (q : ℚ) (h : 0 ≤ q) : 0 ≤ jsFloor q :=
  le_jsFloor 0 q (by exact_mod_cast h)

theorem jsFloor_le_of_lt (q : ℚ) (n : ℤ) (h : q < (n : ℚ) + 1) : jsFloor q ≤ n := by
  rw [jsFloor_eq_floor]
  have : ⌊q⌋ < n + 1 := Int.floor_lt.mpr (by exact_mod_cast h)
  omega

/-- Lower bound for `round2`: if `m ≤ 100·x` then `m/100 ≤ round2 x`. -/
theorem round2_ge (x : ℚ) (m : ℤ) (h : (m : ℚ) ≤ x * 100) :
    (m : ℚ) / 100 ≤ round2 x := by
  have hm : m ≤ jsRound (x * 100) := by
    rw [jsRound]
    exact le_jsFloor m _ (by linarith)
  have : (m : ℚ) ≤ (jsRound (x * 100) : ℚ) := by exact_mod_cast hm
  rw [round2]
  linarith

/-- Upper bound for `round2`: if `100·x < n` then `round2 x ≤ n/100`. -/
theorem round2_le (x : ℚ) (n : ℤ) (h : x * 100 < (n : ℚ)) :
    round2 x ≤ (n : ℚ) / 100 := by
  have hn : jsRound (x * 100) ≤ n := by
    rw [jsRound]
    exact jsFloor_le_of_lt _ n (by linarith)
  have : (jsRound (x * 100) : ℚ) ≤ (n : ℚ) := by exact_mod_cast hn
  rw [round2]
  linarith

theorem round2_nonneg (x : ℚ) (h : 0 ≤ x) : 0 ≤ round2 x := by
  have := round2_ge x 0 (by push_cast; linarith)
  simpa using this

/-- Prefix test on character lists (helper for the substring test). -/
def strStarts : List Char → List Char → Bool
  | [], _ => true
  | _ :: _, [] => false
  | p :: ps, c :: cs => p == c && strStarts ps cs

/-- Substring occurrence test on character lists. -/
def strFindSub (pat : List Char) : List Char → Bool
  | [] => strStarts pat []
  | c :: cs => strStarts pat (c :: cs) || strFindSub pat cs

/-- JavaScript `String.prototype.includes(pat)` (for the non-empty patterns
the controller uses). -/
def strContains (s pat : String) : Bool := strFindSub pat.data s.data

/-- The fixed 10-label disease enumeration `DISEASE_TYPES`. -/
def DISEASE_TYPES : List String :=
  ["Normal",
   "Malaria (Plasmodium)",
   "Babesia",
   "Leishmania",
   "Acute Lymphoblastic Leukemia",
   "Chronic Lymphocytic Leukemia",
   "Acute Myeloid Leukemia",
   "Chronic Myeloid Leukemia",
   "Anemia",
   "Thrombocytopenia"]

/-- One entry of the fixed `CELL_TYPES` table: a cell-type name and its
normal percentage range `[lo, hi]`. -/
structure CellTypeSpec where
  name : String
  lo : ℚ
  hi : ℚ
deriving DecidableEq

/-- The fixed 5-entry cell-type table `CELL_TYPES`. -/
def CELL_TYPES : List CellTypeSpec :=
  [{ name := "Neutrophils", lo := 40, hi := 60 },
   { name := "Lymphocytes", lo := 20, hi := 40 },
   { name := "Monocytes", lo := 2, hi := 8 },
   { name := "Eosinophils", lo := 1, hi := 4 },
   { name := "Basophils", lo := 0, hi := 1 }]

/-- The 5 cell-type labels. -/
def cellTypeNames : List String := CELL_TYPES.map (fun ct => ct.name)

/-- One value of `Math.random()` per call site of
`generateMockAnalysisResults`; indexed call sites (one per loop iteration)
take a function. -/
structure RandSource where
  rDisease : ℚ
  rConf : ℚ
  rRow : ℕ → ℚ
  rAbn : ℕ → ℚ
  rBase : ℕ → ℚ
  rCnt : ℕ → ℚ
  rRbc : ℚ
  rWbc : ℚ
  rPlt : ℚ

/-- `Math.random()` returns a number in `[0, 1)`. -/
def unitIval (q : ℚ) : Prop := 0 ≤ q ∧ q < 1

/-- A random source all of whose draws lie in `[0, 1)`. -/
def ValidRand (r : RandSource) : Prop :=
  unitIval r.rDisease ∧ unitIval r.rConf ∧
  (∀ i, unitIval (r.rRow i)) ∧ (∀ i, unitIval (r.rAbn i)) ∧
  (∀ i, unitIval (r.rBase i)) ∧ (∀ i, unitIval (r.rCnt i)) ∧
  unitIval r.rRbc ∧ unitIval r.rWbc ∧ unitIval r.rPlt

/-- The all-zeros random source, used to instantiate witnesses. -/
def zeroRand : RandSource :=
  { rDisease := 0, rConf := 0, rRow := fun _ => 0, rAbn := fun _ => 0,
    rBase := fun _ => 0, rCnt := fun _ => 0, rRbc := 0, rWbc := 0, rPlt := 0 }

theorem zeroRand_valid : ValidRand zeroRand := by
  unfold ValidRand zeroRand unitIval
  norm_num

/-- The `cellAbnormalities` annotation attached to the primary
classification row. -/
structure CellAbnorm where
  parasitesDetected : Bool
  abnormalMorphology : Bool
  cellSizeVariation : Bool
deriving DecidableEq

/-- One element of the generator's `diseaseClassifications` array;
`cellAbnormalities = none` models the empty object `{}` of non-primary
rows. -/
structure ClassData where
  diseaseName : String
  probability : ℚ
  cellAbnormalities : Option CellAbnorm
deriving DecidableEq

/-- One element of the generator's `cellCounts` array. -/
structure CellData where
  cellType : String
  count : ℤ
  percentage : ℚ
  abnormalCount : ℤ
deriving DecidableEq

/-- The result shape shared by the AI inference script and the mock
generator (`diseaseDetected`, six scalar fields, and the two detail
arrays). -/
structure AIResult where
  diseaseDetected : String
  confidenceScore : ℚ
  rbcCount : ℤ
  wbcCount : ℤ
  plateletCount : ℤ
  analysisNotes : String
  diseaseClassifications : List ClassData
  cellCounts : List CellData

/-- The classification row the generator builds for disease index `i`
(`DISEASE_TYPES.map((disease, idx) => ...)`). -/
def classRowAt (r : RandSource) (conf0 : ℚ) (diseaseIndex i : ℕ) : ClassData :=
  let disease := DISEASE_TYPES.getD i ""
  if i = diseaseIndex then
    { diseaseName := disease
      probability := round2 conf0
      cellAbnormalities := some
        { parasitesDetected := strContains disease "Malaria" || strContains disease "Babesia"
          abnormalMorphology := strContains disease "Leukemia"
          cellSizeVariation := decide ((1 : ℚ)/2 < r.rRow i) } }
  else
    { diseaseName := disease
      probability := round2 (r.rRow i * (100 - conf0) / 10)
      cellAbnormalities := none }

/-- The stable descending sort `(a, b) => b.probability - a.probability`
applied to the classification rows. -/
def sortClassDataDesc (l : List ClassData) : List ClassData :=
  List.insertionSort (fun a b => b.probability ≤ a.probability) l

/-- The `isAbnormal` flag of the generator's cell-count loop:
`primaryDisease.includes('Leukemia') && Math.random() > 0.3` (the random
draw is short-circuited away for non-Leukemia diagnoses). -/
def cellIsAbnormal (r : RandSource) (primaryDisease : String) (i : ℕ) : Bool :=
  strContains primaryDisease "Leukemia" && decide ((3 : ℚ)/10 < r.rAbn i)

/-- The `basePercentage` of the generator's cell-count loop, written with
`ct` for the `CELL_TYPES` entry at index `i`. -/
def cellBasePercentage (r : RandSource) (primaryDisease : String) (i : ℕ) : ℚ :=
  if cellIsAbnormal r primaryDisease i then
    (CELL_TYPES.getD i { name := "", lo := 0, hi := 0 }).lo + r.rBase i * 30
  else
    (CELL_TYPES.getD i { name := "", lo := 0, hi := 0 }).lo + r.rBase i *
      ((CELL_TYPES.getD i { name := "", lo := 0, hi := 0 }).hi -
       (CELL_TYPES.getD i { name := "", lo := 0, hi := 0 }).lo)

/-- The `percentage` of the generator's cell-count loop. -/
def cellPercentage (r : RandSource) (primaryDisease : String) (i : ℕ) : ℚ :=
  round2 (cellBasePercentage r primaryDisease i)

/-- The `count` of the generator's cell-count loop:
`Math.floor(percentage * 100)`. -/
def cellCountVal (r : RandSource) (primaryDisease : String) (i : ℕ) : ℤ :=
  jsFloor (cellPercentage r primaryDisease i * 100)

/-- The `abnormalCount` of the generator's cell-count loop. -/
def cellAbnormalCount (r : RandSource) (primaryDisease : String) (i : ℕ) : ℤ :=
  if cellIsAbnormal r primaryDisease i then
    jsFloor ((cellCountVal r primaryDisease i : ℚ) * (2/10 + r.rCnt i * (3/10)))
  else 0

/-- The cell-count row the generator builds for cell-type index `i`. -/
def cellRowAt (r : RandSource) (primaryDisease : String) (i : ℕ) : CellData :=
  { cellType := (CELL_TYPES.getD i { name := "", lo := 0, hi := 0 }).name
    count := cellCountVal r primaryDisease i
    percentage := cellPercentage r primaryDisease i
    abnormalCount := cellAbnormalCount r primaryDisease i }

/-- The canned clinical notes, selected by substring match on the primary
disease name. -/
def mkAnalysisNotes (primaryDisease : String) : String :=
  if primaryDisease = "Normal" then
    "Blood smear shows normal cellular morphology. RBC, WBC, and platelet counts within expected ranges. No abnormal cells or parasites detected."
  else if strContains primaryDisease "Malaria" then
    "Parasitic inclusions consistent with Plasmodium detected in red blood cells. Recommend confirmatory testing and immediate treatment protocol."
  else if strContains primaryDisease "Leukemia" then
    "Abnormal white blood cell morphology detected. Increased blast cell population observed. Recommend hematology consultation and bone marrow biopsy."
  else if strContains primaryDisease "Anemia" then
    "Reduced red blood cell count with variations in cell size and shape. Consider iron studies and further investigation of underlying cause."
  else
    "Abnormal findings detected. Clinical correlation and additional testing recommended."

/-- The Result Generator `generateMockAnalysisResults`, parameterised by
the random source. -/
def generateMockAnalysisResults (r : RandSource) : AIResult :=
  let diseaseIndex := (jsFloor (r.rDisease * (DISEASE_TYPES.length : ℚ))).toNat
  let primaryDisease := DISEASE_TYPES.getD diseaseIndex ""
  let conf0 := 85 + r.rConf * 12
  { diseaseDetected := primaryDisease
    confidenceScore := round2 conf0
    rbcCount := 4500000 + jsFloor (r.rRbc * 1000000)
    wbcCount := 4000 + jsFloor (r.rWbc * 7000)
    plateletCount := 150000 + jsFloor (r.rPlt * 250000)
    analysisNotes := mkAnalysisNotes primaryDisease
    diseaseClassifications :=
      sortClassDataDesc ((List.range DISEASE_TYPES.length).map (classRowAt r conf0 diseaseIndex))
    cellCounts := (List.range CELL_TYPES.length).map (cellRowAt r primaryDisease) }

/-- The analysis lifecycle status values. -/
inductive Status
  | pending
  | processing
  | completed
  | failed
deriving DecidableEq

/-- One document of the `Analysis` collection. `completedAt` is modelled as
a set/unset flag. -/
structure AnalysisRec where
  id : ℕ
  userId : ℕ
  imageUrl : String
  status : Status
  diseaseDetected : Option String := none
  confidenceScore : Option ℚ := none
  rbcCount : Option ℤ := none
  wbcCount : Option ℤ := none
  plateletCount : Option ℤ := none
  analysisNotes : Option String := none
  completedAt : Bool := false
deriving DecidableEq

/-- One document of the `DiseaseClassification` collection
(`{ analysisId, ...dc }`). -/
structure ClassRow where
  analysisId : ℕ
  diseaseName : String
  probability : ℚ
  cellAbnormalities : Option CellAbnorm
deriving DecidableEq

/-- One document of the `CellCount` collection (`{ analysisId, ...cc }`). -/
structure CellRow where
  analysisId : ℕ
  cellType : String
  count : ℤ
  percentage : ℚ
  abnormalCount : ℤ
deriving DecidableEq

/-- The notification `type` enumeration. -/
inductive NotifType
  | success
  | info
  | warning
  | error
deriving DecidableEq

/-- One document of the `Notification` collection. -/
structure NotifRow where
  userId : ℕ
  title : String
  message : String
  ntype : NotifType
  analysisId : Option ℕ
deriving DecidableEq

/-- The four MongoDB collections the controller touches. -/
structure Store where
  analyses : List AnalysisRec
  classifications : List ClassRow
  cellCounts : List CellRow
  notifications : List NotifRow
deriving DecidableEq

/-- `Analysis.findById(id)`. -/
def findAnalysis (s : Store) (id : ℕ) : Option AnalysisRec :=
  s.analyses.find? (fun a => a.id == id)

/-- `analysis.save()` on a document loaded by id: the stored document with
that id is overwritten with the in-memory one. -/
def saveAnalysis (s : Store) (a : AnalysisRec) : Store :=
  { s with analyses := s.analyses.map (fun b => if b.id = a.id then a else b) }

/-- The error responses the controller can send. -/
inductive ApiError
  | validation
  | notFound
  | notAuthorized
deriving DecidableEq

/-- `createAnalysis`: requires an image URL, inserts a `pending` record with
no optional fields. `newId` stands for the id MongoDB mints. -/
def createAnalysis (s : Store) (userId : ℕ) (imageUrl : Option String)
    (newId : ℕ) : Except ApiError AnalysisRec × Store :=
  match imageUrl with
  | none => (.error .validation, s)
  | some url =>
    let a : AnalysisRec := { id := newId, userId := userId, imageUrl := url, status := .pending }
    (.ok a, { s with analyses := s.analyses ++ [a] })

/-- The synchronous part of `processAnalysis`: load, authorize, set
`status=processing`, save, acknowledge. The deferred callback then works on
the returned in-memory document. -/
def processAnalysisStart (s : Store) (id requesterId : ℕ) :
    Except ApiError AnalysisRec × Store :=
  match findAnalysis s id with
  | none => (.error .notFound, s)
  | some a =>
    if a.userId ≠ requesterId then (.error .notAuthorized, s)
    else
      let aProc := { a with status := .processing }
      (.ok aProc, saveAnalysis s aProc)

/-- The awaited persistence steps of the completion callback at which an
unhandled error can be injected. -/
inductive FailStep
  | saveCompleted
  | insertClassifications
  | insertCellCounts
  | createNotification
deriving DecidableEq

/-- The `error` notification the `catch` block creates. -/
def errorNotif (requesterId aid : ℕ) : NotifRow :=
  { userId := requesterId, title := "Analysis Failed",
    message := "There was an error processing your blood smear analysis. Please try again.",
    ntype := .error, analysisId := some aid }

/-- The `catch` block of the completion callback: mark the in-memory
document (fields assigned so far included) `failed`, save it, and create
one `error` notification referencing the analysis. -/
def failurePath (s : Store) (doc : AnalysisRec) (requesterId : ℕ) : Store :=
  let s' := saveAnalysis s { doc with status := .failed }
  { s' with notifications := s'.notifications ++ [errorNotif requesterId doc.id] }

/-- The result the completion callback works with: the injected inference
output when `runAIInference` succeeded, the mock generator's output when it
returned `null`. -/
def resultOf (inference : Option AIResult) (r : RandSource) : AIResult :=
  match inference with
  | some res => res
  | none => generateMockAnalysisResults r

/-- The in-memory analysis document after the six result-field assignments
and `completedAt` of the completion callback. -/
def completedDoc (a : AnalysisRec) (res : AIResult) : AnalysisRec :=
  { a with
    status := .completed
    diseaseDetected := some res.diseaseDetected
    confidenceScore := some res.confidenceScore
    rbcCount := some res.rbcCount
    wbcCount := some res.wbcCount
    plateletCount := some res.plateletCount
    analysisNotes := some res.analysisNotes
    completedAt := true }

/-- A stored classification row `{ analysisId, ...dc }`. -/
def classDoc (aid : ℕ) (dc : ClassData) : ClassRow :=
  { analysisId := aid, diseaseName := dc.diseaseName,
    probability := dc.probability, cellAbnormalities := dc.cellAbnormalities }

/-- A stored cell-count row `{ analysisId, ...cc }`. -/
def cellDoc (aid : ℕ) (cc : CellData) : CellRow :=
  { analysisId := aid, cellType := cc.cellType, count := cc.count,
    percentage := cc.percentage, abnormalCount := cc.abnormalCount }

/-- The `success` notification the completion callback creates. -/
def successNotif (requesterId aid : ℕ) (disease : String) : NotifRow :=
  { userId := requesterId, title := "Analysis Complete",
    message := "Your blood smear analysis is complete. Disease detected: " ++ disease,
    ntype := .success, analysisId := some aid }

/-- The body of the `setTimeout` callback in `processAnalysis`: obtain a
result (injected inference output, or the mock generator when inference
returned `null`), assign the six result fields and `completedAt` on the
in-memory document, then perform the four awaited persistence steps in
order. `failAt` injects an unhandled error at one step (the failing step
itself writes nothing); control then moves to `failurePath`. -/
def completionSequence (s : Store) (a : AnalysisRec) (requesterId : ℕ)
    (inference : Option AIResult) (r : RandSource) (failAt : Option FailStep) : Store :=
  let aiResults := resultOf inference r
  let aDone := completedDoc a aiResults
  if failAt = some .saveCompleted then failurePath s aDone requesterId else
  let s1 := saveAnalysis s aDone
  if failAt = some .insertClassifications then failurePath s1 aDone requesterId else
  let s2 := { s1 with classifications := s1.classifications ++
      aiResults.diseaseClassifications.map (classDoc a.id) }
  if failAt = some .insertCellCounts then failurePath s2 aDone requesterId else
  let s3 := { s2 with cellCounts := s2.cellCounts ++
      aiResults.cellCounts.map (cellDoc a.id) }
  if failAt = some .createNotification then failurePath s3 aDone requesterId else
  { s3 with notifications := s3.notifications ++
      [successNotif requesterId a.id aiResults.diseaseDetected] }

/-- `processAnalysis` end to end: the synchronous acknowledgement is the
first component; the state after the deferred completion callback has also
run is the second. `inference` is the outcome `runAIInference` delivers
(`none` models every failure mode: it catches all errors and returns
`null`). -/
def startProcessing (s : Store) (id requesterId : ℕ) (inference : Option AIResult)
    (r : RandSource) (failAt : Option FailStep) : Except ApiError Unit × Store :=
  match processAnalysisStart s id requesterId with
  | (.error e, s') => (.error e, s')
  | (.ok aProc, s') => (.ok (), completionSequence s' aProc requesterId inference r failAt)

/-- Descending sort of stored classification rows (`.sort({ probability: -1 })`). -/
def sortClassRowsDesc (l : List ClassRow) : List ClassRow :=
  List.insertionSort (fun a b => b.probability ≤ a.probability) l

/-- Descending sort of stored cell-count rows (`.sort({ percentage: -1 })`). -/
def sortCellRowsDesc (l : List CellRow) : List CellRow :=
  List.insertionSort (fun a b => b.percentage ≤ a.percentage) l

/-- `getAnalysisById`: load, authorize, and return the analysis together
with its detail rows, sorted descending. -/
def getAnalysisById (s : Store) (id requesterId : ℕ) :
    Except ApiError (AnalysisRec × List ClassRow × List CellRow) × Store :=
  match findAnalysis s id with
  | none => (.error .notFound, s)
  | some a =>
    if a.userId ≠ requesterId then (.error .notAuthorized, s)
    else
      (.ok (a,
        sortClassRowsDesc (s.classifications.filter (fun c => c.analysisId == id)),
        sortCellRowsDesc (s.cellCounts.filter (fun c => c.analysisId == id))), s)

/-- `deleteAnalysis`: load, authorize, delete the detail rows referencing
the analysis, then the analysis document itself. -/
def deleteAnalysis (s : Store) (id requesterId : ℕ) : Except ApiError Unit × Store :=
  match findAnalysis s id with
  | none => (.error .notFound, s)
  | some a =>
    if a.userId ≠ requesterId then (.error .notAuthorized, s)
    else
      (.ok (), { s with
        classifications := s.classifications.filter (fun c => !(c.analysisId == id)),
        cellCounts := s.cellCounts.filter (fun c => !(c.analysisId == id)),
        analyses := s.analyses.filter (fun b => !(b.id == id)) })

/-! ### Lemmas about the store primitives -/

theorem find_replace (l : List AnalysisRec) (a : AnalysisRec)
    (h : (l.find? (fun b => b.id == a.id)).isSome) :
    (l.map (fun b => if b.id = a.id then a else b)).find? (fun b => b.id == a.id) = some a := by
  induction l with
  | nil => simp at h
  | cons x xs ih =>
    by_cases hx : x.id = a.id
    · rw [List.map_cons, if_pos hx, List.find?_cons_of_pos _ (by simp)]
    · rw [List.map_cons, if_neg hx, List.find?_cons_of_neg _ (by simpa using hx)]
      rw [List.find?_cons_of_neg _ (by simpa using hx)] at h
      exact ih h

theorem findAnalysis_isSome_of_eq (s : Store) (id : ℕ) (a : AnalysisRec)
    (h : findAnalysis s id = some a) : (findAnalysis s id).isSome := by
  rw [h]; rfl

theorem findAnalysis_save (s : Store) (a : AnalysisRec)
    (h : (findAnalysis s a.id).isSome) :
    findAnalysis (saveAnalysis s a) a.id = some a := by
  unfold findAnalysis saveAnalysis at *
  exact find_replace s.analyses a h

theorem mem_saveAnalysis (s : Store) (a c : AnalysisRec)
    (h : c ∈ (saveAnalysis s a).analyses) : c = a ∨ c ∈ s.analyses := by
  unfold saveAnalysis at h
  simp only [List.mem_map] at h
  obtain ⟨b, hb, hc⟩ := h
  by_cases hid : b.id = a.id
  · left; rw [← hc, if_pos hid]
  · right; rw [← hc, if_neg hid]; exact hb

/-! ### Unfolding lemmas for the orchestration operations -/

theorem startProcessing_ok (s : Store) (a : AnalysisRec) (req : ℕ)
    (inf : Option AIResult) (r : RandSource) (failAt : Option FailStep)
    (hfind : findAnalysis s a.id = some a) (hauth : a.userId = req) :
    startProcessing s a.id req inf r failAt =
      (.ok (), completionSequence (saveAnalysis s { a with status := .processing })
        { a with status := .processing } req inf r failAt) := by
  unfold startProcessing processAnalysisStart
  rw [hfind]
  simp [hauth]

/-- A successful completion: explicit shape of the resulting store. -/
theorem completionSequence_none (s : Store) (a : AnalysisRec) (req : ℕ)
    (inf : Option AIResult) (r : RandSource) :
    completionSequence s a req inf r none =
      { analyses := (saveAnalysis s (completedDoc a (resultOf inf r))).analyses
        classifications := s.classifications ++
          (resultOf inf r).diseaseClassifications.map (classDoc a.id)
        cellCounts := s.cellCounts ++ (resultOf inf r).cellCounts.map (cellDoc a.id)
        notifications := s.notifications ++
          [successNotif req a.id (resultOf inf r).diseaseDetected] } := by
  unfold completionSequence saveAnalysis
  simp

/-- A failing completion leaves exactly one new notification: the `error`
one, whatever the failing step was. -/
theorem completionSequence_fail_notifications (s : Store) (a : AnalysisRec) (req : ℕ)
    (inf : Option AIResult) (r : RandSource) (fs : FailStep) :
    (completionSequence s a req inf r (some fs)).notifications =
      s.notifications ++ [errorNotif req a.id] := by
  cases fs <;> simp [completionSequence, failurePath, saveAnalysis, completedDoc]

/-- A failing completion saves the in-memory document with `status=failed`
but with all of the already-assigned result fields still in place. -/
theorem completionSequence_fail_find (s : Store) (a : AnalysisRec) (req : ℕ)
    (inf : Option AIResult) (r : RandSource) (fs : FailStep)
    (h : (findAnalysis s a.id).isSome) :
    findAnalysis (completionSequence s a req inf r (some fs)) a.id =
      some { completedDoc a (resultOf inf r) with status := .failed } := by
  have hid : ({ completedDoc a (resultOf inf r) with status := .failed } : AnalysisRec).id = a.id := rfl
  have hsave : findAnalysis (saveAnalysis s { completedDoc a (resultOf inf r) with status := .failed }) a.id =
      some { completedDoc a (resultOf inf r) with status := .failed } := by
    rw [show (a.id : ℕ) = ({ completedDoc a (resultOf inf r) with status := .failed } : AnalysisRec).id from rfl] at h ⊢
    exact findAnalysis_save s _ h
  have hsave1 : (findAnalysis (saveAnalysis s (completedDoc a (resultOf inf r))) a.id).isSome := by
    rw [show (a.id : ℕ) = (completedDoc a (resultOf inf r)).id from rfl] at h ⊢
    rw [findAnalysis_save s _ h]; rfl
  have hsave2 : findAnalysis (saveAnalysis (saveAnalysis s (completedDoc a (resultOf inf r)))
      { completedDoc a (resultOf inf r) with status := .failed }) a.id =
      some { completedDoc a (resultOf inf r) with status := .failed } := by
    rw [show (a.id : ℕ) = ({ completedDoc a (resultOf inf r) with status := .failed } : AnalysisRec).id from rfl] at hsave1 ⊢
    exact findAnalysis_save _ _ hsave1
  cases fs
  · exact hsave
  all_goals {
    unfold completionSequence failurePath
    simp only [reduceCtorEq, if_true, if_false, Option.some.injEq, reduceIte]
    exact hsave2 }

/-! ### Lemmas about the Result Generator -/

instance : IsTotal ClassData (fun a b => b.probability ≤ a.probability) :=
  ⟨fun a b => le_total b.probability a.probability⟩

instance : IsTrans ClassData (fun a b => b.probability ≤ a.probability) :=
  ⟨fun _ _ _ h1 h2 => le_trans h2 h1⟩

instance : IsTotal ClassRow (fun a b => b.probability ≤ a.probability) :=
  ⟨fun a b => le_total b.probability a.probability⟩

instance : IsTrans ClassRow (fun a b => b.probability ≤ a.probability) :=
  ⟨fun _ _ _ h1 h2 => le_trans h2 h1⟩

instance : IsTotal CellRow (fun a b => b.percentage ≤ a.percentage) :=
  ⟨fun a b => le_total b.percentage a.percentage⟩

instance : IsTrans CellRow (fun a b => b.percentage ≤ a.percentage) :=
  ⟨fun _ _ _ h1 h2 => le_trans h2 h1⟩

theorem sortClassDataDesc_perm (l : List ClassData) : (sortClassDataDesc l).Perm l :=
  List.perm_insertionSort _ l

theorem sortClassRowsDesc_perm (l : List ClassRow) : (sortClassRowsDesc l).Perm l :=
  List.perm_insertionSort _ l

theorem sortCellRowsDesc_perm (l : List CellRow) : (sortCellRowsDesc l).Perm l :=
  List.perm_insertionSort _ l

theorem sortClassDataDesc_sorted (l : List ClassData) :
    List.Sorted (fun a b => b.probability ≤ a.probability) (sortClassDataDesc l) :=
  List.sorted_insertionSort _ l

theorem classRowAt_diseaseName (r : RandSource) (conf0 : ℚ) (di i : ℕ) :
    (classRowAt r conf0 di i).diseaseName = DISEASE_TYPES.getD i "" := by
  unfold classRowAt
  split <;> rfl

theorem classRowAt_primary_probability (r : RandSource) (conf0 : ℚ) (di : ℕ) :
    (classRowAt r conf0 di di).probability = round2 conf0 := by
  unfold classRowAt
  simp

theorem classRowAt_other_probability (r : RandSource) (conf0 : ℚ) (di i : ℕ)
    (h : i ≠ di) :
    (classRowAt r conf0 di i).probability = round2 (r.rRow i * (100 - conf0) / 10) := by
  unfold classRowAt
  simp [h]

theorem conf0_bounds (r : RandSource) (h : ValidRand r) :
    85 ≤ 85 + r.rConf * 12 ∧ 85 + r.rConf * 12 < 97 := by
  obtain ⟨-, ⟨h0, h1⟩, -⟩ := h
  constructor <;> nlinarith

/-- The generator's confidence score lies in `[85, 97]`. -/
theorem confidence_bounds (r : RandSource) (h : ValidRand r) :
    85 ≤ (generateMockAnalysisResults r).confidenceScore ∧
      (generateMockAnalysisResults r).confidenceScore ≤ 97 := by
  obtain ⟨hlo, hhi⟩ := conf0_bounds r h
  constructor
  · have := round2_ge (85 + r.rConf * 12) 8500 (by push_cast; linarith)
    calc (85 : ℚ) = (8500 : ℤ) / 100 := by norm_num
    _ ≤ _ := this
  · have := round2_le (85 + r.rConf * 12) 9700 (by push_cast; linarith)
    calc (generateMockAnalysisResults r).confidenceScore ≤ ((9700 : ℤ) : ℚ) / 100 := this
    _ = 97 := by norm_num

theorem diseaseIndex_lt (r : RandSource) (h : ValidRand r) :
    (jsFloor (r.rDisease * (DISEASE_TYPES.length : ℚ))).toNat < DISEASE_TYPES.length := by
  obtain ⟨⟨h0, h1⟩, -⟩ := h
  have hub : jsFloor (r.rDisease * (DISEASE_TYPES.length : ℚ)) ≤ 9 := by
    apply jsFloor_le_of_lt
    have hq : (DISEASE_TYPES.length : ℚ) = 10 := by norm_num [DISEASE_TYPES]
    rw [hq]
    push_cast
    nlinarith
  have hlen : DISEASE_TYPES.length = 10 := rfl
  omega

/-- The generator's primary disease label is one of the 10 fixed labels. -/
theorem diseaseDetected_mem (r : RandSource) (h : ValidRand r) :
    (generateMockAnalysisResults r).diseaseDetected ∈ DISEASE_TYPES := by
  have hi := diseaseIndex_lt r h
  show DISEASE_TYPES.getD _ "" ∈ DISEASE_TYPES
  rw [List.getD_eq_getElem DISEASE_TYPES "" hi]
  exact List.getElem_mem hi

/-- The count field of every generated cell row is the floor of 100 times
its (rounded) percentage field. -/
theorem cellRowAt_count (r : RandSource) (p : String) (i : ℕ) :
    (cellRowAt r p i).count = jsFloor ((cellRowAt r p i).percentage * 100) := rfl

theorem cellRowAt_abnormal_of_not_leukemia (r : RandSource) (p : String) (i : ℕ)
    (h : strContains p "Leukemia" = false) :
    (cellRowAt r p i).abnormalCount = 0 := by
  show cellAbnormalCount r p i = 0
  unfold cellAbnormalCount cellIsAbnormal
  simp [h]

theorem cellTypeSpec_bounds :
    ∀ ct ∈ CELL_TYPES, 0 ≤ ct.lo ∧ ct.lo ≤ ct.hi ∧ ct.hi ≤ 100 ∧ ct.lo ≤ 70 := by
  intro ct hct
  fin_cases hct <;> norm_num

theorem cellBasePercentage_bounds (r : RandSource) (p : String) (i : ℕ)
    (h : ValidRand r) (hi : i < CELL_TYPES.length) :
    0 ≤ cellBasePercentage r p i ∧ cellBasePercentage r p i < 100 := by
  obtain ⟨-, -, -, -, hbase, -⟩ := h
  obtain ⟨hb0, hb1⟩ := hbase i
  have hct : CELL_TYPES.getD i { name := "", lo := 0, hi := 0 } ∈ CELL_TYPES := by
    rw [List.getD_eq_getElem CELL_TYPES _ hi]
    exact List.getElem_mem hi
  obtain ⟨hlo0, hlohi, hhi100, hlo70⟩ := cellTypeSpec_bounds _ hct
  unfold cellBasePercentage
  split <;> constructor <;> nlinarith

theorem cellPercentage_bounds (r : RandSource) (p : String) (i : ℕ)
    (h : ValidRand r) (hi : i < CELL_TYPES.length) :
    0 ≤ cellPercentage r p i ∧ cellPercentage r p i ≤ 100 := by
  obtain ⟨hbp0, hbp100⟩ := cellBasePercentage_bounds r p i h hi
  constructor
  · exact round2_nonneg _ hbp0
  · have h1 : cellBasePercentage r p i * 100 < ((10000 : ℤ) : ℚ) := by push_cast; nlinarith
    have := round2_le (cellBasePercentage r p i) 10000 h1
    have h2 : ((10000 : ℤ) : ℚ) / 100 = 100 := by norm_num
    unfold cellPercentage
    linarith [this, h2.le]

theorem cellCountVal_nonneg (r : RandSource) (p : String) (i : ℕ)
    (h : ValidRand r) (hi : i < CELL_TYPES.length) :
    0 ≤ cellCountVal r p i := by
  obtain ⟨hp0, -⟩ := cellPercentage_bounds r p i h hi
  unfold cellCountVal
  exact jsFloor_nonneg _ (by nlinarith)

theorem cellAbnormalCount_le (r : RandSource) (p : String) (i : ℕ)
    (h : ValidRand r) (hi : i < CELL_TYPES.length) :
    cellAbnormalCount r p i ≤ cellCountVal r p i := by
  have hcnt0 : 0 ≤ cellCountVal r p i := cellCountVal_nonneg r p i h hi
  obtain ⟨-, -, -, -, -, hcnt, -⟩ := h
  obtain ⟨hc0, hc1⟩ := hcnt i
  unfold cellAbnormalCount
  split
  · have hcnt0' : (0 : ℚ) ≤ (cellCountVal r p i : ℚ) := by exact_mod_cast hcnt0
    have hfac : (cellCountVal r p i : ℚ) * (2/10 + r.rCnt i * (3/10)) ≤
        (cellCountVal r p i : ℚ) := by nlinarith
    calc jsFloor ((cellCountVal r p i : ℚ) * (2/10 + r.rCnt i * (3/10)))
        ≤ jsFloor ((cellCountVal r p i : ℚ)) := by
          rw [jsFloor_eq_floor, jsFloor_eq_floor]
          exact Int.floor_le_floor hfac
    _ = cellCountVal r p i := by rw [jsFloor_eq_floor]; exact Int.floor_intCast _
  · exact hcnt0

/-- Bounds for one generated cell row: percentage in `[0, 100]`,
non-negative count, and abnormal count at most the count. -/
theorem cellRowAt_bounds (r : RandSource) (p : String) (i : ℕ)
    (h : ValidRand r) (hi : i < CELL_TYPES.length) :
    0 ≤ (cellRowAt r p i).percentage ∧ (cellRowAt r p i).percentage ≤ 100 ∧
      0 ≤ (cellRowAt r p i).count ∧
      (cellRowAt r p i).abnormalCount ≤ (cellRowAt r p i).count := by
  obtain ⟨h0, h1⟩ := cellPercentage_bounds r p i h hi
  exact ⟨h0, h1, cellCountVal_nonneg r p i h hi, cellAbnormalCount_le r p i h hi⟩

/-! ### Shared concrete fixtures -/

/-- A freshly created analysis owned by user 7. -/
def exAnalysis : AnalysisRec :=
  { id := 1, userId := 7, imageUrl := "img-1", status := .pending }

/-- A store holding just `exAnalysis`. -/
def exStore : Store :=
  { analyses := [exAnalysis], classifications := [], cellCounts := [], notifications := [] }

/-- A concrete well-formed inference output: one classification row per
disease label and one cell row per cell type. -/
def exInferenceResult : AIResult :=
  { diseaseDetected := "Normal"
    confidenceScore := 90
    rbcCount := 5000000
    wbcCount := 7000
    plateletCount := 250000
    analysisNotes := "No abnormality."
    diseaseClassifications :=
      [{ diseaseName := "Normal", probability := 90, cellAbnormalities := none },
       { diseaseName := "Malaria (Plasmodium)", probability := 1, cellAbnormalities := none },
       { diseaseName := "Babesia", probability := 1, cellAbnormalities := none },
       { diseaseName := "Leishmania", probability := 1, cellAbnormalities := none },
       { diseaseName := "Acute Lymphoblastic Leukemia", probability := 1, cellAbnormalities := none },
       { diseaseName := "Chronic Lymphocytic Leukemia", probability := 1, cellAbnormalities := none },
       { diseaseName := "Acute Myeloid Leukemia", probability := 1, cellAbnormalities := none },
       { diseaseName := "Chronic Myeloid Leukemia", probability := 1, cellAbnormalities := none },
       { diseaseName := "Anemia", probability := 1, cellAbnormalities := none },
       { diseaseName := "Thrombocytopenia", probability := 1, cellAbnormalities := none }]
    cellCounts :=
      [{ cellType := "Neutrophils", count := 5000, percentage := 50, abnormalCount := 0 },
       { cellType := "Lymphocytes", count := 3000, percentage := 30, abnormalCount := 0 },
       { cellType := "Monocytes", count := 500, percentage := 5, abnormalCount := 0 },
       { cellType := "Eosinophils", count := 200, percentage := 2, abnormalCount := 0 },
       { cellType := "Basophils", count := 100, percentage := 1, abnormalCount := 0 }] }

/-! ### Derived facts about whole runs of `startProcessing` -/

/-- An error-free deferred completion ends with the analysis record holding
`status=completed` and the six result fields of the obtained result. -/
theorem startProcessing_completes (s : Store) (a : AnalysisRec) (req : ℕ)
    (inf : Option AIResult) (r : RandSource)
    (hfind : findAnalysis s a.id = some a) (hauth : a.userId = req) :
    findAnalysis (startProcessing s a.id req inf r none).2 a.id =
      some (completedDoc { a with status := .processing } (resultOf inf r)) := by
  have h1 := startProcessing_ok s a req inf r none hfind hauth
  rw [h1]
  show findAnalysis (completionSequence (saveAnalysis s { a with status := .processing })
    { a with status := .processing } req inf r none) a.id = _
  rw [completionSequence_none]
  show findAnalysis (saveAnalysis (saveAnalysis s { a with status := .processing })
    (completedDoc { a with status := .processing } (resultOf inf r))) a.id = _
  have hpres1 : (findAnalysis s ({ a with status := .processing } : AnalysisRec).id).isSome := by
    show (findAnalysis s a.id).isSome
    rw [hfind]; rfl
  have e1 : findAnalysis (saveAnalysis s { a with status := .processing }) a.id =
      some { a with status := .processing } :=
    findAnalysis_save s _ hpres1
  have hpres2 : (findAnalysis (saveAnalysis s { a with status := .processing })
      (completedDoc { a with status := .processing } (resultOf inf r)).id).isSome := by
    show (findAnalysis (saveAnalysis s { a with status := .processing }) a.id).isSome
    rw [e1]; rfl
  exact findAnalysis_save _ _ hpres2

/-- A deferred completion with an unhandled error at any step ends with the
analysis record holding `status=failed` but every already-assigned result
field still populated. -/
theorem startProcessing_fails (s : Store) (a : AnalysisRec) (req : ℕ)
    (inf : Option AIResult) (r : RandSource) (fs : FailStep)
    (hfind : findAnalysis s a.id = some a) (hauth : a.userId = req) :
    findAnalysis (startProcessing s a.id req inf r (some fs)).2 a.id =
      some { completedDoc { a with status := .processing } (resultOf inf r) with
             status := .failed } := by
  have h1 := startProcessing_ok s a req inf r (some fs) hfind hauth
  rw [h1]
  show findAnalysis (completionSequence (saveAnalysis s { a with status := .processing })
    { a with status := .processing } req inf r (some fs)) a.id = _
  have hpres1 : (findAnalysis s ({ a with status := .processing } : AnalysisRec).id).isSome := by
    show (findAnalysis s a.id).isSome
    rw [hfind]; rfl
  have e1 : findAnalysis (saveAnalysis s { a with status := .processing }) a.id =
      some { a with status := .processing } :=
    findAnalysis_save s _ hpres1
  have hpres2 : (findAnalysis (saveAnalysis s { a with status := .processing })
      ({ a with status := .processing } : AnalysisRec).id).isSome := by
    show (findAnalysis (saveAnalysis s { a with status := .processing }) a.id).isSome
    rw [e1]; rfl
  exact completionSequence_fail_find _ _ req inf r fs hpres2

/-- The notifications created by a failing `startProcessing` run: exactly
the one `error` notification, whatever the failing step. -/
theorem startProcessing_fails_notifications (s : Store) (a : AnalysisRec) (req : ℕ)
    (inf : Option AIResult) (r : RandSource) (fs : FailStep)
    (hfind : findAnalysis s a.id = some a) (hauth : a.userId = req) :
    (startProcessing s a.id req inf r (some fs)).2.notifications =
      s.notifications ++ [errorNotif req a.id] := by
  have h1 := startProcessing_ok s a req inf r (some fs) hfind hauth
  rw [h1]
  show (completionSequence (saveAnalysis s { a with status := .processing })
    { a with status := .processing } req inf r (some fs)).notifications = _
  rw [completionSequence_fail_notifications]
  rfl

/-! ### C9 -/

/-- C9: on an existing Analysis owned by someone else, `get`, `delete` and
`startProcessing` each fail with the authorization error and leave the
store unchanged, whatever the analysis status. -/
theorem C9_other_owner_rejected (s : Store) (a : AnalysisRec) (req : ℕ)
    (inf : Option AIResult) (r : RandSource) (failAt : Option FailStep)
    (hfind : findAnalysis s a.id = some a) (hne : a.userId ≠ req) :
    getAnalysisById s a.id req = (.error .notAuthorized, s) ∧
    deleteAnalysis s a.id req = (.error .notAuthorized, s) ∧
    startProcessing s a.id req inf r failAt = (.error .notAuthorized, s) := by
  unfold getAnalysisById deleteAnalysis startProcessing processAnalysisStart
  rw [hfind]
  simp [hne]

/-- C9 witness: user 8 is rejected on user 7's analysis. -/
theorem C9_other_owner_rejected_witness :
    findAnalysis exStore 1 = some exAnalysis ∧ exAnalysis.userId ≠ 8 ∧
    (getAnalysisById exStore 1 8 = (.error .notAuthorized, exStore) ∧
     deleteAnalysis exStore 1 8 = (.error .notAuthorized, exStore) ∧
     startProcessing exStore 1 8 none zeroRand none = (.error .notAuthorized, exStore)) :=
  ⟨rfl, by decide, C9_other_owner_rejected exStore exAnalysis 8 none zeroRand none rfl (by decide)⟩

/-! ### C7 -/

/-- C7: an authorized delete removes every DiseaseClassification and
CellCount row referencing the analysis, and the analysis itself. -/
theorem C7_delete_cascades (s : Store) (a : AnalysisRec) (req : ℕ)
    (hfind : findAnalysis s a.id = some a) (hauth : a.userId = req) :
    (deleteAnalysis s a.id req).1 = .ok () ∧
    (∀ c ∈ (deleteAnalysis s a.id req).2.classifications, c.analysisId ≠ a.id) ∧
    (∀ c ∈ (deleteAnalysis s a.id req).2.cellCounts, c.analysisId ≠ a.id) ∧
    findAnalysis (deleteAnalysis s a.id req).2 a.id = none := by
  have hok : deleteAnalysis s a.id req = (.ok (), { s with
      classifications := s.classifications.filter (fun c => !(c.analysisId == a.id)),
      cellCounts := s.cellCounts.filter (fun c => !(c.analysisId == a.id)),
      analyses := s.analyses.filter (fun b => !(b.id == a.id)) }) := by
    unfold deleteAnalysis
    rw [hfind]
    simp [hauth]
  rw [hok]
  refine ⟨rfl, ?_, ?_, ?_⟩
  · intro c hc
    simp only [List.mem_filter, Bool.not_eq_true', beq_eq_false_iff_ne, ne_eq] at hc
    exact hc.2
  · intro c hc
    simp only [List.mem_filter, Bool.not_eq_true', beq_eq_false_iff_ne, ne_eq] at hc
    exact hc.2
  · unfold findAnalysis
    rw [List.find?_eq_none]
    intro b hb
    simp only [List.mem_filter, Bool.not_eq_true', beq_eq_false_iff_ne, ne_eq] at hb
    simpa using hb.2

/-- A completed analysis together with detail rows and a notification, to
exercise delete. -/
def exStoreWithDetails : Store :=
  { analyses := [{ exAnalysis with status := .completed }]
    classifications := [classDoc 1 { diseaseName := "Normal", probability := 90, cellAbnormalities := none }]
    cellCounts := [cellDoc 1 { cellType := "Neutrophils", count := 5000, percentage := 50, abnormalCount := 0 }]
    notifications := [successNotif 7 1 "Normal"] }

/-- C7 witness: delete on a store with one classification, one cell row and
one notification for the analysis. -/
theorem C7_delete_cascades_witness :
    findAnalysis exStoreWithDetails 1 = some { exAnalysis with status := .completed } ∧
    ({ exAnalysis with status := .completed } : AnalysisRec).userId = 7 ∧
    ((deleteAnalysis exStoreWithDetails 1 7).1 = .ok () ∧
     (∀ c ∈ (deleteAnalysis exStoreWithDetails 1 7).2.classifications, c.analysisId ≠ 1) ∧
     (∀ c ∈ (deleteAnalysis exStoreWithDetails 1 7).2.cellCounts, c.analysisId ≠ 1) ∧
     findAnalysis (deleteAnalysis exStoreWithDetails 1 7).2 1 = none) :=
  ⟨rfl, rfl, C7_delete_cascades exStoreWithDetails { exAnalysis with status := .completed } 7 rfl rfl⟩

/-! ### C8 -/

/-- C8 counterexample: deleting the analysis succeeds and removes the
analysis, yet the notification referencing it keeps its `analysisId`
back-reference (the delete never touches the Notification collection). -/
theorem C8_dangling_notification_counterexample :
    (deleteAnalysis exStoreWithDetails 1 7).1 = .ok () ∧
    findAnalysis (deleteAnalysis exStoreWithDetails 1 7).2 1 = none ∧
    ∃ n ∈ (deleteAnalysis exStoreWithDetails 1 7).2.notifications, n.analysisId = some 1 :=
  ⟨rfl, rfl, ⟨successNotif 7 1 "Normal", List.mem_singleton_self _, rfl⟩⟩

/-- C8 amended: `deleteAnalysis` leaves the Notification collection
entirely untouched, so a Notification referencing the deleted Analysis
keeps its dangling `analysisId`. -/
theorem C8_delete_leaves_notifications (s : Store) (id req : ℕ) :
    (deleteAnalysis s id req).2.notifications = s.notifications := by
  unfold deleteAnalysis
  cases findAnalysis s id with
  | none => rfl
  | some a =>
    by_cases h : a.userId ≠ req <;> simp [h]

/-! ### C3 -/

/-- C3: when inference always fails (`runAIInference` yields `null`), an
error-free `startProcessing` still terminates with `status=completed` and
all six result fields populated from the Result Generator's output. -/
theorem C3_fallback_transparent (s : Store) (a : AnalysisRec) (req : ℕ) (r : RandSource)
    (hfind : findAnalysis s a.id = some a) (hauth : a.userId = req) :
    ((findAnalysis (startProcessing s a.id req none r none).2 a.id).map
        (fun x => x.status) = some .completed) ∧
    ((findAnalysis (startProcessing s a.id req none r none).2 a.id).map
        (fun x => x.diseaseDetected) =
      some (some (generateMockAnalysisResults r).diseaseDetected)) ∧
    ((findAnalysis (startProcessing s a.id req none r none).2 a.id).map
        (fun x => x.confidenceScore) =
      some (some (generateMockAnalysisResults r).confidenceScore)) ∧
    ((findAnalysis (startProcessing s a.id req none r none).2 a.id).map
        (fun x => x.rbcCount) = some (some (generateMockAnalysisResults r).rbcCount)) ∧
    ((findAnalysis (startProcessing s a.id req none r none).2 a.id).map
        (fun x => x.wbcCount) = some (some (generateMockAnalysisResults r).wbcCount)) ∧
    ((findAnalysis (startProcessing s a.id req none r none).2 a.id).map
        (fun x => x.plateletCount) =
      some (some (generateMockAnalysisResults r).plateletCount)) ∧
    ((findAnalysis (startProcessing s a.id req none r none).2 a.id).map
        (fun x => x.analysisNotes) =
      some (some (generateMockAnalysisResults r).analysisNotes)) := by
  have h := startProcessing_completes s a req none r hfind hauth
  rw [h]
  simp [completedDoc, resultOf]

/-- C3 witness: a concrete pending analysis processed with failing
inference and the all-zeros random source. -/
theorem C3_fallback_transparent_witness :
    findAnalysis exStore 1 = some exAnalysis ∧ exAnalysis.userId = 7 ∧
    ((findAnalysis (startProcessing exStore 1 7 none zeroRand none).2 1).map
        (fun x => x.status) = some .completed) :=
  ⟨rfl, rfl, (C3_fallback_transparent exStore exAnalysis 7 zeroRand rfl rfl).1⟩

/-! ### C1 -/

theorem completionSequence_insertCellCounts_classifications (s : Store) (a : AnalysisRec)
    (req : ℕ) (inf : Option AIResult) (r : RandSource) :
    (completionSequence s a req inf r (some .insertCellCounts)).classifications =
      s.classifications ++ (resultOf inf r).diseaseClassifications.map (classDoc a.id) := by
  simp [completionSequence, failurePath, saveAnalysis]

/-- C1 counterexample: inject a persistence failure at the CellCount write
of a run whose inference succeeded. The analysis does end `status=failed`,
but contrary to the claim its optional result fields remain populated
(`diseaseDetected = "Normal"`) and the 10 DiseaseClassification rows
written before the failing step remain retrievable. -/
theorem C1_failure_leftovers_counterexample :
    ((findAnalysis (startProcessing exStore 1 7 (some exInferenceResult) zeroRand
        (some .insertCellCounts)).2 1).map (fun x => x.status) = some .failed) ∧
    ((findAnalysis (startProcessing exStore 1 7 (some exInferenceResult) zeroRand
        (some .insertCellCounts)).2 1).map (fun x => x.diseaseDetected) =
      some (some "Normal")) ∧
    ((startProcessing exStore 1 7 (some exInferenceResult) zeroRand
        (some .insertCellCounts)).2.classifications.filter
      (fun c => c.analysisId == 1)).length = 10 := by
  have h := startProcessing_fails exStore exAnalysis 7 (some exInferenceResult) zeroRand
    .insertCellCounts rfl rfl
  refine ⟨?_, ?_, ?_⟩
  · rw [show (1 : ℕ) = exAnalysis.id from rfl, h]; rfl
  · rw [show (1 : ℕ) = exAnalysis.id from rfl, h]; rfl
  · rfl

/-- C1 amended: an unhandled error at any completion step still yields
`status=failed` and exactly one `error`-typed Notification, but the
optional result fields assigned before the failure remain populated (the
failure-path save persists them), and detail rows written before the
failing step are not rolled back. -/
theorem C1_failure_semantics (s : Store) (a : AnalysisRec) (req : ℕ)
    (inf : Option AIResult) (r : RandSource) (fs : FailStep)
    (hfind : findAnalysis s a.id = some a) (hauth : a.userId = req) :
    ((findAnalysis (startProcessing s a.id req inf r (some fs)).2 a.id).map
        (fun x => x.status) = some .failed) ∧
    ((findAnalysis (startProcessing s a.id req inf r (some fs)).2 a.id).map
        (fun x => x.diseaseDetected.isSome) = some true) ∧
    ((findAnalysis (startProcessing s a.id req inf r (some fs)).2 a.id).map
        (fun x => x.confidenceScore.isSome) = some true) ∧
    ((findAnalysis (startProcessing s a.id req inf r (some fs)).2 a.id).map
        (fun x => x.rbcCount.isSome) = some true) ∧
    ((findAnalysis (startProcessing s a.id req inf r (some fs)).2 a.id).map
        (fun x => x.wbcCount.isSome) = some true) ∧
    ((findAnalysis (startProcessing s a.id req inf r (some fs)).2 a.id).map
        (fun x => x.plateletCount.isSome) = some true) ∧
    ((findAnalysis (startProcessing s a.id req inf r (some fs)).2 a.id).map
        (fun x => x.analysisNotes.isSome) = some true) ∧
    (startProcessing s a.id req inf r (some fs)).2.notifications =
      s.notifications ++ [errorNotif req a.id] := by
  have h := startProcessing_fails s a req inf r fs hfind hauth
  have hn := startProcessing_fails_notifications s a req inf r fs hfind hauth
  rw [h]
  exact ⟨rfl, rfl, rfl, rfl, rfl, rfl, rfl, hn⟩

/-- C1 amended witness: the failure injected at the CellCount write. -/
theorem C1_failure_semantics_witness :
    findAnalysis exStore 1 = some exAnalysis ∧ exAnalysis.userId = 7 ∧
    (startProcessing exStore 1 7 (some exInferenceResult) zeroRand
        (some .insertCellCounts)).2.notifications =
      exStore.notifications ++ [errorNotif 7 1] :=
  ⟨rfl, rfl,
    (C1_failure_semantics exStore exAnalysis 7 (some exInferenceResult) zeroRand
      .insertCellCounts rfl rfl).2.2.2.2.2.2.2⟩

/-! ### C2 -/

/-- The empty store, the state before any analysis is created. -/
def emptyStore : Store :=
  { analyses := [], classifications := [], cellCounts := [], notifications := [] }

/-- C2 counterexample: after `create → startProcessing → completion` the
analysis is `completed`, yet re-invoking `startProcessing` moves it back to
`processing` — the transition `completed → processing` is reachable, which
the claim rules out. -/
theorem C2_backward_transition_counterexample :
    ((findAnalysis (startProcessing (createAnalysis emptyStore 7 (some "img-1") 1).2
        1 7 (some exInferenceResult) zeroRand none).2 1).map (fun x => x.status) =
      some .completed) ∧
    ((findAnalysis (processAnalysisStart (startProcessing
        (createAnalysis emptyStore 7 (some "img-1") 1).2
        1 7 (some exInferenceResult) zeroRand none).2 1 7).2 1).map (fun x => x.status) =
      some .processing) :=
  ⟨rfl, rfl⟩

/-- C2 amended: each operation in isolation moves the status as follows —
`create` yields `pending`; `startProcessing` sets `processing` from any
current status (so re-invocation reaches `completed → processing`, a
backward edge); an error-free completion yields `completed` and a failing
one `failed`. Within one `create → startProcessing → completion` run only
the forward transitions `pending → processing → {completed | failed}`
occur. -/
theorem C2_status_transitions (s : Store) (a : AnalysisRec) (req : ℕ)
    (inf : Option AIResult) (r : RandSource)
    (hfind : findAnalysis s a.id = some a) (hauth : a.userId = req) :
    (∀ u url nid rec, (createAnalysis s u (some url) nid).1 = .ok rec →
      rec.status = .pending) ∧
    ((findAnalysis (processAnalysisStart s a.id req).2 a.id).map
        (fun x => x.status) = some .processing) ∧
    ((findAnalysis (startProcessing s a.id req inf r none).2 a.id).map
        (fun x => x.status) = some .completed) ∧
    (∀ fs : FailStep, (findAnalysis (startProcessing s a.id req inf r (some fs)).2 a.id).map
        (fun x => x.status) = some .failed) := by
  refine ⟨?_, ?_, ?_, ?_⟩
  · intro u url nid rec hrec
    unfold createAnalysis at hrec
    simp only [Except.ok.injEq] at hrec
    rw [← hrec]
  · have hstart : processAnalysisStart s a.id req =
        (.ok { a with status := .processing }, saveAnalysis s { a with status := .processing }) := by
      unfold processAnalysisStart
      rw [hfind]
      simp [hauth]
    rw [hstart]
    have hpres : (findAnalysis s ({ a with status := .processing } : AnalysisRec).id).isSome := by
      show (findAnalysis s a.id).isSome
      rw [hfind]; rfl
    have := findAnalysis_save s { a with status := .processing } hpres
    show (findAnalysis (saveAnalysis s { a with status := .processing }) a.id).map
      (fun x => x.status) = some .processing
    rw [this]
    rfl
  · rw [startProcessing_completes s a req inf r hfind hauth]
    rfl
  · intro fs
    rw [startProcessing_fails s a req inf r fs hfind hauth]
    rfl

/-- C2 amended witness: the concrete pending analysis. -/
theorem C2_status_transitions_witness :
    findAnalysis exStore 1 = some exAnalysis ∧ exAnalysis.userId = 7 ∧
    ((findAnalysis (processAnalysisStart exStore 1 7).2 1).map
      (fun x => x.status) = some .processing) :=
  ⟨rfl, rfl,
    (C2_status_transitions exStore exAnalysis 7 none zeroRand rfl rfl).2.1⟩

/-! ### C6 -/

/-- Every generated cell row is `cellRowAt` at some index below 5. -/
theorem mem_generator_cellCounts (r : RandSource) (cc : CellData)
    (h : cc ∈ (generateMockAnalysisResults r).cellCounts) :
    ∃ i, i < CELL_TYPES.length ∧
      cc = cellRowAt r (generateMockAnalysisResults r).diseaseDetected i := by
  have he : (generateMockAnalysisResults r).cellCounts =
      (List.range CELL_TYPES.length).map
        (cellRowAt r (generateMockAnalysisResults r).diseaseDetected) := rfl
  rw [he] at h
  simp only [List.mem_map, List.mem_range] at h
  obtain ⟨i, hi, he2⟩ := h
  exact ⟨i, hi, he2.symm⟩

/-- Bound on the `confidenceScore` field when present. -/
def analysisConfOK (a : AnalysisRec) : Prop :=
  ∀ c, a.confidenceScore = some c → 0 ≤ c ∧ c ≤ 100

/-- Bounds on one stored CellCount row. -/
def cellRowOK (c : CellRow) : Prop :=
  0 ≤ c.percentage ∧ c.percentage ≤ 100 ∧ c.abnormalCount ≤ c.count

/-- The numeric contract of an inference/generator result: confidence in
`[0, 100]` and well-formed cell rows. -/
def aiResultOK (res : AIResult) : Prop :=
  (0 ≤ res.confidenceScore ∧ res.confidenceScore ≤ 100) ∧
  ∀ cc ∈ res.cellCounts,
    0 ≤ cc.percentage ∧ cc.percentage ≤ 100 ∧ cc.abnormalCount ≤ cc.count

/-- The store-wide numeric invariant of the claim. -/
def storeOK (s : Store) : Prop :=
  (∀ a ∈ s.analyses, analysisConfOK a) ∧ (∀ c ∈ s.cellCounts, cellRowOK c)

theorem generator_resultOK (r : RandSource) (h : ValidRand r) :
    aiResultOK (generateMockAnalysisResults r) := by
  constructor
  · obtain ⟨h1, h2⟩ := confidence_bounds r h
    constructor <;> linarith
  · intro cc hcc
    obtain ⟨i, hi, rfl⟩ := mem_generator_cellCounts r cc hcc
    obtain ⟨h1, h2, _h3, h4⟩ := cellRowAt_bounds r _ i h hi
    exact ⟨h1, h2, h4⟩

theorem resultOf_OK (inf : Option AIResult) (r : RandSource)
    (hinf : ∀ res, inf = some res → aiResultOK res) (hr : ValidRand r) :
    aiResultOK (resultOf inf r) := by
  cases inf with
  | none => exact generator_resultOK r hr
  | some res => exact hinf res rfl

theorem mem_failurePath_analyses (s : Store) (doc : AnalysisRec) (req : ℕ)
    (x : AnalysisRec) (hx : x ∈ (failurePath s doc req).analyses) :
    x = { doc with status := .failed } ∨ x ∈ s.analyses :=
  mem_saveAnalysis s _ x hx

theorem completionSequence_analyses_cases (s : Store) (a : AnalysisRec) (req : ℕ)
    (inf : Option AIResult) (r : RandSource) (failAt : Option FailStep)
    (x : AnalysisRec) (hx : x ∈ (completionSequence s a req inf r failAt).analyses) :
    x = completedDoc a (resultOf inf r) ∨
    x = { completedDoc a (resultOf inf r) with status := .failed } ∨
    x ∈ s.analyses := by
  cases failAt with
  | none =>
    rw [completionSequence_none] at hx
    rcases mem_saveAnalysis _ _ _ hx with h | h
    · exact Or.inl h
    · exact Or.inr (Or.inr h)
  | some fs =>
    have hx' : x ∈ (failurePath s (completedDoc a (resultOf inf r)) req).analyses ∨
        x ∈ (failurePath (saveAnalysis s (completedDoc a (resultOf inf r)))
          (completedDoc a (resultOf inf r)) req).analyses := by
      cases fs
      · exact Or.inl hx
      · exact Or.inr hx
      · exact Or.inr hx
      · exact Or.inr hx
    rcases hx' with hx' | hx'
    · rcases mem_failurePath_analyses _ _ _ _ hx' with h | h
      · exact Or.inr (Or.inl h)
      · exact Or.inr (Or.inr h)
    · rcases mem_failurePath_analyses _ _ _ _ hx' with h | h
      · exact Or.inr (Or.inl h)
      · rcases mem_saveAnalysis _ _ _ h with h2 | h2
        · exact Or.inl h2
        · exact Or.inr (Or.inr h2)

theorem completionSequence_cellCounts_cases (s : Store) (a : AnalysisRec) (req : ℕ)
    (inf : Option AIResult) (r : RandSource) (failAt : Option FailStep) :
    (completionSequence s a req inf r failAt).cellCounts = s.cellCounts ∨
    (completionSequence s a req inf r failAt).cellCounts =
      s.cellCounts ++ (resultOf inf r).cellCounts.map (cellDoc a.id) := by
  cases failAt with
  | none =>
    right
    rw [completionSequence_none]
  | some fs =>
    cases fs
    · exact Or.inl rfl
    · exact Or.inl rfl
    · exact Or.inl rfl
    · exact Or.inr rfl

/-- C6: provided the inference collaborator honors its numeric contract,
every completion path — fallback or real inference, error-free or failing
at any step — preserves the invariant that present `confidenceScore`
fields are in `[0, 100]` and every CellCount row has a percentage in
`[0, 100]` with `abnormalCount ≤ count`. -/
theorem C6_bounds_invariant (s : Store) (a : AnalysisRec) (req : ℕ)
    (inf : Option AIResult) (r : RandSource) (failAt : Option FailStep)
    (hfind : findAnalysis s a.id = some a) (hauth : a.userId = req)
    (hs : storeOK s) (hinf : ∀ res, inf = some res → aiResultOK res)
    (hr : ValidRand r) :
    storeOK (startProcessing s a.id req inf r failAt).2 := by
  rw [startProcessing_ok s a req inf r failAt hfind hauth]
  show storeOK (completionSequence (saveAnalysis s { a with status := .processing })
    { a with status := .processing } req inf r failAt)
  have hres := resultOf_OK inf r hinf hr
  have hamem : a ∈ s.analyses := List.mem_of_find?_eq_some hfind
  constructor
  · intro x hx
    rcases completionSequence_analyses_cases _ _ _ _ _ _ x hx with h | h | h
    · rw [h]
      intro c hc
      have : some (resultOf inf r).confidenceScore = some c := hc
      obtain rfl : (resultOf inf r).confidenceScore = c := by injection this
      exact hres.1
    · rw [h]
      intro c hc
      have : some (resultOf inf r).confidenceScore = some c := hc
      obtain rfl : (resultOf inf r).confidenceScore = c := by injection this
      exact hres.1
    · rcases mem_saveAnalysis _ _ _ h with h2 | h2
      · rw [h2]
        intro c hc
        exact hs.1 a hamem c hc
      · exact hs.1 x h2
  · rcases completionSequence_cellCounts_cases (saveAnalysis s { a with status := .processing })
        { a with status := .processing } req inf r failAt with h | h
    · rw [h]
      intro c hc
      exact hs.2 c hc
    · rw [h]
      intro c hc
      rcases List.mem_append.mp hc with h2 | h2
      · exact hs.2 c h2
      · simp only [List.mem_map] at h2
        obtain ⟨cc, hcc, rfl⟩ := h2
        exact hres.2 cc hcc

theorem storeOK_exStore : storeOK exStore := by
  constructor
  · intro x hx
    simp only [exStore, List.mem_singleton] at hx
    rw [hx]
    intro c hc
    exact absurd hc (by simp [exAnalysis])
  · intro c hc
    simp [exStore] at hc

/-- C6 witness: the invariant holds after a fallback completion of the
concrete pending analysis. -/
theorem C6_bounds_invariant_witness :
    findAnalysis exStore 1 = some exAnalysis ∧ exAnalysis.userId = 7 ∧
    storeOK exStore ∧ (∀ res, (none : Option AIResult) = some res → aiResultOK res) ∧
    ValidRand zeroRand ∧
    storeOK (startProcessing exStore 1 7 none zeroRand none).2 :=
  ⟨rfl, rfl, storeOK_exStore, fun res h => by simp at h, zeroRand_valid,
    C6_bounds_invariant exStore exAnalysis 7 none zeroRand none rfl rfl storeOK_exStore
      (fun res h => by simp at h) zeroRand_valid⟩

/-! ### C10 -/

/-- C10: every generated cell row satisfies
`count = Math.floor(percentage * 100)`, and its `abnormalCount` is zero
whenever the primary disease name does not contain "Leukemia". -/
theorem C10_cell_count_derivation (r : RandSource) :
    ∀ cc ∈ (generateMockAnalysisResults r).cellCounts,
      cc.count = jsFloor (cc.percentage * 100) ∧
      (strContains (generateMockAnalysisResults r).diseaseDetected "Leukemia" = false →
        cc.abnormalCount = 0) := by
  intro cc hcc
  obtain ⟨i, _hi, rfl⟩ := mem_generator_cellCounts r cc hcc
  exact ⟨cellRowAt_count r _ i, fun h => cellRowAt_abnormal_of_not_leukemia r _ i h⟩

/-- C10 witness: the first cell row generated from the all-zeros random
source. -/
theorem C10_cell_count_derivation_witness :
    (generateMockAnalysisResults zeroRand).cellCounts.getD 0
        { cellType := "", count := 0, percentage := 0, abnormalCount := 0 } ∈
      (generateMockAnalysisResults zeroRand).cellCounts ∧
    (((generateMockAnalysisResults zeroRand).cellCounts.getD 0
        { cellType := "", count := 0, percentage := 0, abnormalCount := 0 }).count =
      jsFloor (((generateMockAnalysisResults zeroRand).cellCounts.getD 0
        { cellType := "", count := 0, percentage := 0, abnormalCount := 0 }).percentage * 100) ∧
     (strContains (generateMockAnalysisResults zeroRand).diseaseDetected "Leukemia" = false →
      ((generateMockAnalysisResults zeroRand).cellCounts.getD 0
        { cellType := "", count := 0, percentage := 0, abnormalCount := 0 }).abnormalCount = 0)) := by
  have hlen : 0 < (generateMockAnalysisResults zeroRand).cellCounts.length := by
    show 0 < ((List.range CELL_TYPES.length).map _).length
    simp [CELL_TYPES]
  have hmem : (generateMockAnalysisResults zeroRand).cellCounts.getD 0
      { cellType := "", count := 0, percentage := 0, abnormalCount := 0 } ∈
      (generateMockAnalysisResults zeroRand).cellCounts := by
    rw [List.getD_eq_getElem _ _ hlen]
    exact List.getElem_mem hlen
  exact ⟨hmem, C10_cell_count_derivation zeroRand _ hmem⟩

/-! ### C5 -/

/-- C5: for every value of the random source, the generator's primary
label belongs to the fixed 10-label enumeration, its confidence lies in
`[85, 97]`, and the head of the (descending-sorted) classification table —
the row of highest probability — carries exactly the primary label. -/
theorem C5_generator_top_row (r : RandSource) (h : ValidRand r) :
    (generateMockAnalysisResults r).diseaseDetected ∈ DISEASE_TYPES ∧
    85 ≤ (generateMockAnalysisResults r).confidenceScore ∧
    (generateMockAnalysisResults r).confidenceScore ≤ 97 ∧
    ∃ top, (generateMockAnalysisResults r).diseaseClassifications.head? = some top ∧
      top.diseaseName = (generateMockAnalysisResults r).diseaseDetected ∧
      ∀ c ∈ (generateMockAnalysisResults r).diseaseClassifications,
        c.probability ≤ top.probability := by
  obtain ⟨hconf1, hconf2⟩ := confidence_bounds r h
  refine ⟨diseaseDetected_mem r h, hconf1, hconf2, ?_⟩
  set di := (jsFloor (r.rDisease * (DISEASE_TYPES.length : ℚ))).toNat with hdi
  set conf0 := 85 + r.rConf * 12 with hconf0
  set genRows := (List.range DISEASE_TYPES.length).map (classRowAt r conf0 di) with hgen
  have hrows : (generateMockAnalysisResults r).diseaseClassifications =
      sortClassDataDesc genRows := rfl
  have hperm := sortClassDataDesc_perm genRows
  have hsorted := sortClassDataDesc_sorted genRows
  have hdl : di < DISEASE_TYPES.length := diseaseIndex_lt r h
  have hprimmem : classRowAt r conf0 di di ∈ genRows := by
    rw [hgen]
    exact List.mem_map_of_mem _ (List.mem_range.mpr hdl)
  obtain ⟨hc0lo, hc0hi⟩ := conf0_bounds r h
  have hprimprob : 85 ≤ (classRowAt r conf0 di di).probability := by
    rw [classRowAt_primary_probability]
    have hge := round2_ge conf0 8500 (by rw [hconf0]; push_cast; linarith)
    calc (85 : ℚ) = ((8500 : ℤ) : ℚ) / 100 := by norm_num
    _ ≤ _ := hge
  have hother : ∀ j, j ≠ di → (classRowAt r conf0 di j).probability ≤ 3/2 := by
    intro j hj
    rw [classRowAt_other_probability r conf0 di j hj]
    obtain ⟨-, -, hrow, -⟩ := h
    obtain ⟨hr0, hr1⟩ := hrow j
    have hval : r.rRow j * (100 - conf0) / 10 * 100 < ((150 : ℤ) : ℚ) := by
      rw [hconf0]
      push_cast
      nlinarith
    have hle := round2_le _ 150 hval
    calc round2 (r.rRow j * (100 - conf0) / 10) ≤ ((150 : ℤ) : ℚ) / 100 := hle
    _ ≤ 3/2 := by norm_num
  have hlen10 : genRows.length = 10 := by
    rw [hgen]
    simp [DISEASE_TYPES]
  have hne : sortClassDataDesc genRows ≠ [] := by
    intro hnil
    have hl := hperm.length_eq
    rw [hnil, hlen10] at hl
    simp at hl
  obtain ⟨top, rest, hcons⟩ : ∃ top rest, sortClassDataDesc genRows = top :: rest := by
    cases hs : sortClassDataDesc genRows with
    | nil => exact absurd hs hne
    | cons t ts => exact ⟨t, ts, rfl⟩
  have htopmax : ∀ c ∈ sortClassDataDesc genRows, c.probability ≤ top.probability := by
    intro c hc
    rw [hcons] at hc hsorted
    rcases List.mem_cons.mp hc with h1 | h1
    · rw [h1]
    · exact List.rel_of_sorted_cons hsorted c h1
  have htopmem : top ∈ genRows :=
    hperm.mem_iff.mp (by rw [hcons]; exact List.mem_cons_self top rest)
  have htopmem' : top ∈ (List.range DISEASE_TYPES.length).map (classRowAt r conf0 di) := by
    rw [← hgen]; exact htopmem
  obtain ⟨j, hjr, hje⟩ := List.mem_map.mp htopmem'
  have hjd : j = di := by
    by_contra hne2
    have h1 : top.probability ≤ 3/2 := by
      rw [← hje]
      exact hother j hne2
    have h2 : (classRowAt r conf0 di di).probability ≤ top.probability :=
      htopmax _ (hperm.mem_iff.mpr hprimmem)
    linarith
  have hname : top.diseaseName = (generateMockAnalysisResults r).diseaseDetected := by
    rw [← hje, hjd, classRowAt_diseaseName]
    rfl
  refine ⟨top, ?_, hname, ?_⟩
  · rw [hrows, hcons]
    rfl
  · rw [hrows]
    exact htopmax

/-- C5 witness: instantiation at the all-zeros random source. -/
theorem C5_generator_top_row_witness :
    ValidRand zeroRand ∧
    ((generateMockAnalysisResults zeroRand).diseaseDetected ∈ DISEASE_TYPES ∧
     85 ≤ (generateMockAnalysisResults zeroRand).confidenceScore ∧
     (generateMockAnalysisResults zeroRand).confidenceScore ≤ 97 ∧
     ∃ top, (generateMockAnalysisResults zeroRand).diseaseClassifications.head? = some top ∧
       top.diseaseName = (generateMockAnalysisResults zeroRand).diseaseDetected ∧
       ∀ c ∈ (generateMockAnalysisResults zeroRand).diseaseClassifications,
         c.probability ≤ top.probability) :=
  ⟨zeroRand_valid, C5_generator_top_row zeroRand zeroRand_valid⟩

/-! ### C4 -/

/-- The store reached by processing the same analysis twice in a row, both
runs with successful inference and no persistence error. -/
def exDoubleRun : Store :=
  (startProcessing (startProcessing exStore 1 7 (some exInferenceResult) zeroRand none).2
    1 7 (some exInferenceResult) zeroRand none).2

/-- C4 counterexample: after re-invoking `startProcessing` on the
already-completed analysis (nothing guards against this), the analysis is
`completed` but its details query finds 20 DiseaseClassification rows and
10 CellCount rows — the detail-row writes were duplicated. -/
theorem C4_duplicate_rows_counterexample :
    ((findAnalysis exDoubleRun 1).map (fun x => x.status) = some .completed) ∧
    (exDoubleRun.classifications.filter (fun c => c.analysisId == 1)).length = 20 ∧
    (sortClassRowsDesc (exDoubleRun.classifications.filter
      (fun c => c.analysisId == 1))).length = 20 ∧
    (exDoubleRun.cellCounts.filter (fun c => c.analysisId == 1)).length = 10 :=
  ⟨rfl, rfl, by rw [(sortClassRowsDesc_perm _).length_eq]; rfl, rfl⟩

theorem disease_label_count :
    ∀ d ∈ DISEASE_TYPES,
      (List.range DISEASE_TYPES.length).countP (fun i => DISEASE_TYPES.getD i "" == d) = 1 := by
  decide

theorem cell_label_count :
    ∀ n ∈ cellTypeNames,
      (List.range CELL_TYPES.length).countP
        (fun i => (CELL_TYPES.getD i { name := "", lo := 0, hi := 0 }).name == n) = 1 := by
  decide

theorem generator_classifications_def (r : RandSource) :
    (generateMockAnalysisResults r).diseaseClassifications =
      sortClassDataDesc ((List.range DISEASE_TYPES.length).map
        (classRowAt r (85 + r.rConf * 12)
          ((jsFloor (r.rDisease * (DISEASE_TYPES.length : ℚ))).toNat))) := rfl

theorem generator_cellCounts_def (r : RandSource) :
    (generateMockAnalysisResults r).cellCounts =
      (List.range CELL_TYPES.length).map
        (cellRowAt r (DISEASE_TYPES.getD
          ((jsFloor (r.rDisease * (DISEASE_TYPES.length : ℚ))).toNat) "")) := rfl

theorem cellRowAt_cellType (r : RandSource) (p : String) (i : ℕ) :
    (cellRowAt r p i).cellType = (CELL_TYPES.getD i { name := "", lo := 0, hi := 0 }).name := rfl

/-- C4 amended: for an analysis completed by a single fallback completion
run that starts with no pre-existing detail rows, the details query
returns exactly 10 classification rows — each of the 10 disease labels
exactly once — and exactly 5 cell rows — each of the 5 cell-type labels
exactly once. (Re-invoking `startProcessing` on a completed analysis
duplicates the detail rows, as the counterexample shows.) -/
theorem C4_single_run_details (s : Store) (a : AnalysisRec) (req : ℕ) (r : RandSource)
    (hfind : findAnalysis s a.id = some a) (hauth : a.userId = req)
    (hclean1 : s.classifications.filter (fun c => c.analysisId == a.id) = [])
    (hclean2 : s.cellCounts.filter (fun c => c.analysisId == a.id) = []) :
    ∃ rec cls ccs,
      (getAnalysisById (startProcessing s a.id req none r none).2 a.id req).1 =
        .ok (rec, cls, ccs) ∧
      rec.status = .completed ∧
      cls.length = 10 ∧
      (∀ d ∈ DISEASE_TYPES, (cls.filter (fun c => c.diseaseName == d)).length = 1) ∧
      ccs.length = 5 ∧
      (∀ n ∈ cellTypeNames, (ccs.filter (fun c => c.cellType == n)).length = 1) := by
  have hout : (startProcessing s a.id req none r none).2 =
      completionSequence (saveAnalysis s { a with status := .processing })
        { a with status := .processing } req none r none := by
    rw [startProcessing_ok s a req none r none hfind hauth]
  have houtcls : (startProcessing s a.id req none r none).2.classifications =
      s.classifications ++
        (generateMockAnalysisResults r).diseaseClassifications.map (classDoc a.id) := by
    rw [hout, completionSequence_none]
    rfl
  have houtcc : (startProcessing s a.id req none r none).2.cellCounts =
      s.cellCounts ++
        (generateMockAnalysisResults r).cellCounts.map (cellDoc a.id) := by
    rw [hout, completionSequence_none]
    rfl
  have hfound : findAnalysis (startProcessing s a.id req none r none).2 a.id =
      some (completedDoc { a with status := .processing } (generateMockAnalysisResults r)) :=
    startProcessing_completes s a req none r hfind hauth
  have hq1 : (getAnalysisById (startProcessing s a.id req none r none).2 a.id req).1 =
      .ok (completedDoc { a with status := .processing } (generateMockAnalysisResults r),
        sortClassRowsDesc ((startProcessing s a.id req none r none).2.classifications.filter
          (fun c => c.analysisId == a.id)),
        sortCellRowsDesc ((startProcessing s a.id req none r none).2.cellCounts.filter
          (fun c => c.analysisId == a.id))) := by
    unfold getAnalysisById
    rw [hfound]
    have hne : ¬((completedDoc { a with status := .processing }
        (generateMockAnalysisResults r)).userId ≠ req) := by
      show ¬(a.userId ≠ req)
      simp [hauth]
    simp [hne]
  have hf1 : (startProcessing s a.id req none r none).2.classifications.filter
      (fun c => c.analysisId == a.id) =
      (generateMockAnalysisResults r).diseaseClassifications.map (classDoc a.id) := by
    rw [houtcls, List.filter_append, hclean1, List.nil_append]
    apply List.filter_eq_self.mpr
    intro c hc
    obtain ⟨dc, -, rfl⟩ := List.mem_map.mp hc
    simp [classDoc]
  have hf2 : (startProcessing s a.id req none r none).2.cellCounts.filter
      (fun c => c.analysisId == a.id) =
      (generateMockAnalysisResults r).cellCounts.map (cellDoc a.id) := by
    rw [houtcc, List.filter_append, hclean2, List.nil_append]
    apply List.filter_eq_self.mpr
    intro c hc
    obtain ⟨cc, -, rfl⟩ := List.mem_map.mp hc
    simp [cellDoc]
  have hq2 : (getAnalysisById (startProcessing s a.id req none r none).2 a.id req).1 =
      .ok (completedDoc { a with status := .processing } (generateMockAnalysisResults r),
        sortClassRowsDesc ((generateMockAnalysisResults r).diseaseClassifications.map
          (classDoc a.id)),
        sortCellRowsDesc ((generateMockAnalysisResults r).cellCounts.map (cellDoc a.id))) := by
    rw [hq1, hf1, hf2]
  have hcls_len : (sortClassRowsDesc ((generateMockAnalysisResults r).diseaseClassifications.map
      (classDoc a.id))).length = 10 := by
    rw [(sortClassRowsDesc_perm _).length_eq, List.length_map,
      generator_classifications_def, (sortClassDataDesc_perm _).length_eq,
      List.length_map, List.length_range]
    rfl
  have hcls_cnt : ∀ d ∈ DISEASE_TYPES,
      ((sortClassRowsDesc ((generateMockAnalysisResults r).diseaseClassifications.map
        (classDoc a.id))).filter (fun c => c.diseaseName == d)).length = 1 := by
    intro d hd
    rw [← List.countP_eq_length_filter, (sortClassRowsDesc_perm _).countP_eq,
      List.countP_map]
    show (generateMockAnalysisResults r).diseaseClassifications.countP
      (fun dc => dc.diseaseName == d) = 1
    rw [generator_classifications_def, (sortClassDataDesc_perm _).countP_eq,
      List.countP_map]
    have hpred : ((fun dc => dc.diseaseName == d) ∘
        (classRowAt r (85 + r.rConf * 12)
          ((jsFloor (r.rDisease * (DISEASE_TYPES.length : ℚ))).toNat))) =
        (fun i => DISEASE_TYPES.getD i "" == d) := by
      funext i
      show ((classRowAt r (85 + r.rConf * 12) _ i).diseaseName == d) = _
      rw [classRowAt_diseaseName]
    rw [hpred]
    exact disease_label_count d hd
  have hccs_len : (sortCellRowsDesc ((generateMockAnalysisResults r).cellCounts.map
      (cellDoc a.id))).length = 5 := by
    rw [(sortCellRowsDesc_perm _).length_eq, List.length_map,
      generator_cellCounts_def, List.length_map, List.length_range]
    rfl
  have hccs_cnt : ∀ n ∈ cellTypeNames,
      ((sortCellRowsDesc ((generateMockAnalysisResults r).cellCounts.map
        (cellDoc a.id))).filter (fun c => c.cellType == n)).length = 1 := by
    intro n hn
    rw [← List.countP_eq_length_filter, (sortCellRowsDesc_perm _).countP_eq,
      List.countP_map]
    show (generateMockAnalysisResults r).cellCounts.countP
      (fun cc => cc.cellType == n) = 1
    rw [generator_cellCounts_def, List.countP_map]
    have hpred : ((fun cc => cc.cellType == n) ∘
        (cellRowAt r (DISEASE_TYPES.getD
          ((jsFloor (r.rDisease * (DISEASE_TYPES.length : ℚ))).toNat) ""))) =
        (fun i => (CELL_TYPES.getD i { name := "", lo := 0, hi := 0 }).name == n) := by
      funext i
      show ((cellRowAt r _ i).cellType == n) = _
      rw [cellRowAt_cellType]
    rw [hpred]
    exact cell_label_count n hn
  exact ⟨completedDoc { a with status := .processing } (generateMockAnalysisResults r),
    sortClassRowsDesc ((generateMockAnalysisResults r).diseaseClassifications.map
      (classDoc a.id)),
    sortCellRowsDesc ((generateMockAnalysisResults r).cellCounts.map (cellDoc a.id)),
    hq2, rfl, hcls_len, hcls_cnt, hccs_len, hccs_cnt⟩

/-- C4 amended witness: the concrete pending analysis with a clean store. -/
theorem C4_single_run_details_witness :
    findAnalysis exStore 1 = some exAnalysis ∧ exAnalysis.userId = 7 ∧
    exStore.classifications.filter (fun c => c.analysisId == 1) = [] ∧
    exStore.cellCounts.filter (fun c => c.analysisId == 1) = [] ∧
    (∃ rec cls ccs,
      (getAnalysisById (startProcessing exStore 1 7 none zeroRand none).2 1 7).1 =
        .ok (rec, cls, ccs) ∧
      rec.status = .completed ∧
      cls.length = 10 ∧
      (∀ d ∈ DISEASE_TYPES, (cls.filter (fun c => c.diseaseName == d)).length = 1) ∧
      ccs.length = 5 ∧
      (∀ n ∈ cellTypeNames, (ccs.filter (fun c => c.cellType == n)).length = 1)) :=
  ⟨rfl, rfl, rfl, rfl,
    C4_single_run_details exStore exAnalysis 7 zeroRand rfl rfl rfl rfl⟩

end BloodSmear
